import Mathlib

/-!
Verification of the jade job-orchestration core against its specification.

Each definition is a shallow embedding of the corresponding Python
function from the repository sources (file and symbol given in the doc
comments).  Strings are Lean `String`s, Python dicts with fixed keys are
structures, exceptions are `Except`, class-level mutable state is passed
explicitly, and filesystem effects are traces of observable states.
Collaborators outside the excerpt are modelled from the spec and say so
in their doc comments.
-/

namespace Jade

/-! ## jade/extensions/demo/autoregression_parameters.py -/

/-- `AutoRegressionParameters.__init__` stores `country`, `data` and the
computed `_name`; the property `name` returns `_name`. -/
structure AutoRegressionParameters where
  country : String
  data : String
  name : String
deriving DecidableEq, Repr

namespace AutoRegressionParameters

/-- `AutoRegressionParameters._EXTENSION = "demo"`, returned by the
`extension` property. -/
def _EXTENSION : String := "demo"

/-- `_create_name(self)`: `self.country.replace(" ", "_").lower()`.
The pattern of `replace` is the single character `' '`, so the call
rewrites characters one at a time, and `.lower()` lowercases
character-wise; the embedding therefore maps over the characters. -/
def _create_name (country : String) : String :=
  String.mk (country.data.map (fun c => if c = ' ' then '_' else c.toLower))

/-- `__init__(self, country, data)`: stores both arguments and sets
`self._name = self._create_name()`. -/
def init (country data : String) : AutoRegressionParameters :=
  { country := country, data := data, name := _create_name country }

/-- The dict returned by `serialize` has exactly the keys
`country`, `data`, `extension`. -/
structure Serialized where
  country : String
  data : String
  extension : String
deriving DecidableEq, Repr

/-- `serialize(self)`: note the source stores `self._name` (not
`self.country`) under the `"country"` key. -/
def serialize (p : AutoRegressionParameters) : Serialized :=
  { country := p.name, data := p.data, extension := _EXTENSION }

/-- `deserialize(cls, param)`: `cls(param["country"], param["data"])`. -/
def deserialize (param : Serialized) : AutoRegressionParameters :=
  init param.country param.data

end AutoRegressionParameters

/-! ## jade/hpc/fake_manager.py -/

/-- Modelled from the spec: `HpcJobStatus` (jade/hpc/common.py is not in
the excerpt) is the enumeration `{NONE, QUEUED, RUNNING, COMPLETE, FAILED}`;
NONE means "no external record found". -/
inductive HpcJobStatus where
  | NONE
  | QUEUED
  | RUNNING
  | COMPLETE
  | FAILED
deriving DecidableEq, Repr

/-- Modelled from the spec: `HpcJobInfo` (jade/hpc/common.py is not in the
excerpt) is the record `(job_id, name, status)`.  `FakeManager.check_status`
constructs it as `HpcJobInfo(job_id, "", status)` where `job_id` may be
`None`, hence `Option String`. -/
structure HpcJobInfo where
  job_id : Option String
  name : String
  status : HpcJobStatus
deriving DecidableEq, Repr

/-- Modelled from the spec: `Status` from jade.enums is not in the excerpt;
`FakeManager.submit` returns `Status.GOOD` as the submission outcome. -/
inductive Status where
  | GOOD
  | ERROR
deriving DecidableEq, Repr

/-- Modelled from the spec: `SubprocessManager` (jade/utils/subprocess_manager.py
is not in the excerpt) runs the submission script as a child process;
`in_progress()` reports whether the child is still alive.  The embedding
records the script and the aliveness flag; `run` starts the child alive. -/
structure SubprocessManager where
  script : String
  alive : Bool
deriving DecidableEq, Repr

/-- `SubprocessManager.in_progress()`. -/
def SubprocessManager.in_progress (s : SubprocessManager) : Bool :=
  s.alive

/-- Instance state of `FakeManager`: `__init__` sets
`self._subprocess_mgr = None` and `self._job_id = None`. -/
structure FakeManager where
  _subprocess_mgr : Option SubprocessManager
  _job_id : Option String
deriving DecidableEq, Repr

namespace FakeManager

/-- `FakeManager.__init__(self, _)`. -/
def init : FakeManager :=
  { _subprocess_mgr := none, _job_id := none }

/-- The class attribute `FakeManager.next_job_id` starts at 1.  It is
class-level state shared by every instance; in the embedding it is threaded
explicitly through `submit` as a separate `Nat`. -/
def next_job_id_initial : Nat := 1

/-- `check_status(self, name=None, job_id=None)`: returns
`HpcJobInfo(job_id, "", s)` where `s` is NONE when no subprocess manager
exists, RUNNING while `in_progress()`, else COMPLETE.  The queried
`job_id` is never consulted for the status. -/
def check_status (m : FakeManager) (_name job_id : Option String) : HpcJobInfo :=
  match m._subprocess_mgr with
  | none => { job_id := job_id, name := "", status := HpcJobStatus.NONE }
  | some s =>
    if s.in_progress then
      { job_id := job_id, name := "", status := HpcJobStatus.RUNNING }
    else
      { job_id := job_id, name := "", status := HpcJobStatus.COMPLETE }

/-- `check_statuses(self)`: `{self._job_id: self.check_status(job_id=self._job_id).status}`,
a one-entry dict, embedded as a one-entry association list. -/
def check_statuses (m : FakeManager) : List (Option String × HpcJobStatus) :=
  [(m._job_id, (m.check_status none m._job_id).status)]

/-- The tuple `(Status.GOOD, self._job_id, None)` returned by `submit`. -/
structure SubmitResult where
  status : Status
  job_id : String
  err : Option String
deriving DecidableEq, Repr

/-- `submit(self, filename)`: reads and increments the class attribute
`FakeManager.next_job_id` (passed in and returned explicitly), stores
`str(next_job_id)` in `self._job_id`, starts a new `SubprocessManager`
running `filename` (the freshly spawned child is alive), and returns
`(Status.GOOD, self._job_id, None)`. -/
def submit (next_job_id : Nat) (m : FakeManager) (filename : String) :
    Nat × FakeManager × SubmitResult :=
  let id := toString next_job_id
  (next_job_id + 1,
   { m with
     _job_id := some id,
     _subprocess_mgr := some { script := filename, alive := true } },
   { status := Status.GOOD, job_id := id, err := none })

end FakeManager

/-- Runs `n` successive `FakeManager.submit` calls on one instance,
starting from class counter `g` and instance state `m`, submitting script
`files k` at the k-th call; returns the final class counter, the final
instance state, and the job ids returned by the calls in order. -/
def runSubmits (files : Nat → String) : Nat → Nat → FakeManager → Nat × FakeManager × List String
  | 0, g, m => (g, m, [])
  | n + 1, g, m =>
    let r := FakeManager.submit g m (files 0)
    let rest := runSubmits (fun k => files (k + 1)) n r.1 r.2.1
    (rest.1, rest.2.1, r.2.2.job_id :: rest.2.2)

/-! ## jade/utils/utils.py -/

/-- `MAX_PATH_LENGTH = 255`. -/
def MAX_PATH_LENGTH : Nat := 255

/-- `create_chunks(items, size)`:
`for i in range(0, len(items), size): yield items[i:i + size]`.
For `size > 0` this yields the first `size` items, then the chunks of the
rest.  (For `size = 0` Python's `range` raises ValueError; the embedding
returns `[]` there, and no claim concerns that case.) -/
def create_chunks (items : List α) (size : Nat) : List (List α) :=
  match items with
  | [] => []
  | x :: xs =>
    if _hs : size = 0 then []
    else (x :: xs).take size :: create_chunks ((x :: xs).drop size) size
termination_by items.length
decreasing_by
  simp only [List.length_drop, List.length_cons]
  omega

/-- The observable state of the file at a destination path: `none` when no
file exists, otherwise its text content and whether the execute bit is
set. -/
structure FileState where
  text : String
  executable : Bool
deriving DecidableEq, Repr

/-- `create_script(filename, text, executable=True)` embedded as the
sequence of observable states of the destination path: the initial state;
the state after the `os.remove` that runs when the file exists (either
way, no file remains at that point); the state after `open(filename, "w")`
plus `write` (the file holds `text`, execute bit clear); and the state
after `os.chmod(filename, st_mode | S_IEXEC)` when `executable` is set. -/
def create_script_trace (initial : Option FileState) (text : String)
    (executable : Bool) : List (Option FileState) :=
  let afterRemove : Option FileState := none
  let afterWrite : Option FileState := some { text := text, executable := false }
  let afterChmod : Option FileState :=
    if executable then some { text := text, executable := true } else afterWrite
  [initial, afterRemove, afterWrite, afterChmod]

/-- `FakeManager.create_submission_script(self, name, script, filename, path)`:
builds `lines = ["#!/bin/bash", script]` and calls
`create_script(filename, "\n".join(lines))`, so the rendered text is
`"#!/bin/bash\n" + script` and `executable` keeps its default `True`. -/
def FakeManager.create_submission_script_trace (initial : Option FileState)
    (script : String) : List (Option FileState) :=
  create_script_trace initial ("#!/bin/bash" ++ "\n" ++ script) true

/-- The character class `[\w\.-]` of the `check_filename` regex over the
ASCII range, where Python's `\w` is `[A-Za-z0-9_]`: letters, digits,
underscore, period, hyphen. -/
def validFilenameChar (c : Char) : Bool :=
  c.isAlphanum || c = '_' || c = '.' || c = '-'

/-- Semantics of `re.search(r"^[\w\.-]+$", name)` without the MULTILINE
flag: `^` anchors at the start of the string and `$` matches at the end of
the string or just before a newline at the end of the string, so a match
exists iff the name, after dropping one trailing newline when present, is
a non-empty run of characters of the class. -/
def matchesFilenameRegex (name : String) : Bool :=
  let cs := name.data
  let core := if cs.getLast? = some '\n' then cs.dropLast else cs
  !core.isEmpty && core.all validFilenameChar

/-- `check_filename(name)`: raises InvalidParameter (embedded as
`Except.error`) when the regex does not match, then when
`len(name) > MAX_PATH_LENGTH`; otherwise returns normally with no side
effect. -/
def check_filename (name : String) : Except String Unit :=
  if !matchesFilenameRegex name then
    Except.error (name ++ " contains illegal characters.")
  else if name.length > MAX_PATH_LENGTH then
    Except.error ("length of " ++ name ++ " is greater than the limit of 255.")
  else
    Except.ok ()

/-! ## jade/jobs/job_manager_base.py -/

/-- Modelled from the spec: `Result` (jade/result.py is not in the
excerpt) is the record `(job_name, return_code, execution_time, status)`;
`get_results_summmary` only inspects `status == 0`.  `execution_time` is
a float in the source and is embedded as an integer since no claim
observes it. -/
structure Result where
  job_name : String
  return_code : Int
  execution_time : Int
  status : Int
deriving DecidableEq, Repr

/-- Modelled from the spec: a `JobConfiguration`
(jade/jobs/job_configuration.py is not in the excerpt) is an ordered
collection of job parameters and `get_num_jobs()` returns their count;
only the job list is observed here. -/
structure JobConfiguration where
  jobs : List String
deriving DecidableEq, Repr

/-- `JobConfiguration.get_num_jobs()`, modelled from the spec:
`num_jobs` equals the count of contained job parameters. -/
def JobConfiguration.get_num_jobs (c : JobConfiguration) : Nat :=
  c.jobs.length

/-- The state of `JobManagerBase` read by the summary: the configuration
loaded in `__init__` and the `Result` list `self._results`. -/
structure JobManagerBase where
  _config : JobConfiguration
  _results : List Result
deriving DecidableEq, Repr

namespace JobManagerBase

/-- `get_num_jobs(self)`: `self._config.get_num_jobs()`. -/
def get_num_jobs (jm : JobManagerBase) : Nat :=
  jm._config.get_num_jobs

/-- `get_completed_results(self)`: `self._results[:]`, a copy equal, as a
list, to the stored results. -/
def get_completed_results (jm : JobManagerBase) : List Result :=
  jm._results

/-- The dict returned by `get_results_summmary` with its four keys. -/
structure ResultsSummary where
  num_jobs : Nat
  num_complete : Nat
  num_successful : Nat
  num_failed : Nat
deriving DecidableEq, Repr

/-- `get_results_summmary(self)` (spelling as in the source): loops over
`self._results` incrementing `num_successful` when `job.status == 0` and
`num_failed` otherwise, then returns the dict with `num_jobs` from the
configuration and `num_complete = len(self._results)`.  It reads but never
writes the stored results (a pure projection). -/
def get_results_summmary (jm : JobManagerBase) : ResultsSummary :=
  let counters := jm._results.foldl
    (fun (p : Nat × Nat) job => if job.status == 0 then (p.1 + 1, p.2) else (p.1, p.2 + 1))
    (0, 0)
  { num_jobs := jm.get_num_jobs,
    num_complete := jm._results.length,
    num_successful := counters.1,
    num_failed := counters.2 }

end JobManagerBase

/-! ## jade/cli/auto_config.py -/

/-- Observable effects of `auto_config` after post-process validation:
printing the job count and dumping the configuration file. -/
inductive AutoConfigEvent where
  | printedJobCount (n : Nat)
  | dumpedConfig (config_file : String)
deriving DecidableEq, Repr

/-- Modelled from the spec: the collaborators `auto_config` calls —
`JobPostProcess.load_config_from_file`, the `JobPostProcess` constructor
(construct-and-discard validation that may raise), `Registry.is_registered`,
the extension CLI's `auto_config` — are outside the excerpt; they are
embedded as oracle functions that may fail. -/
structure AutoConfigEnv where
  load_config_from_file : String → Except String (String × String × String)
  job_post_process_ok : String → String → String → Except String Unit
  is_registered : String → Bool
  cli_auto_config : String → Option (String × String × String) → Except String JobConfiguration

/-- The tail of `auto_config` after post-process validation: check the
registry, build the configuration via the extension CLI, print the job
count, and `config.dump(config_file)`. -/
def auto_config_rest (env : AutoConfigEnv) (extension inputs config_file : String)
    (post_process_config : Option (String × String × String)) :
    List AutoConfigEvent × Except String Unit :=
  if !env.is_registered extension then
    ([], Except.error ("Extension " ++ extension ++ " is not registered."))
  else
    match env.cli_auto_config inputs post_process_config with
    | Except.error e => ([], Except.error e)
    | Except.ok config =>
      ([AutoConfigEvent.printedJobCount config.get_num_jobs,
        AutoConfigEvent.dumpedConfig config_file],
       Except.ok ())

/-- `auto_config(extension, inputs, config_file, post_process_config_file, verbose)`:
when a post-process config file is supplied, first load it and validate it
by constructing (and discarding) a `JobPostProcess`; any failure there
aborts the command before the registry lookup, the configuration build and
the dump. -/
def auto_config (env : AutoConfigEnv) (extension inputs config_file : String)
    (post_process_config_file : Option String) :
    List AutoConfigEvent × Except String Unit :=
  match post_process_config_file with
  | none => auto_config_rest env extension inputs config_file none
  | some f =>
    match env.load_config_from_file f with
    | Except.error e => ([], Except.error e)
    | Except.ok (module, class_name, data) =>
      match env.job_post_process_ok module class_name data with
      | Except.error e => ([], Except.error e)
      | Except.ok _ =>
        auto_config_rest env extension inputs config_file (some (module, class_name, data))

/-- A concrete collaborator environment whose post-process validation
fails (the JobPostProcess constructor raises); used to witness the
auto_config claim. -/
def sampleAutoConfigEnv : AutoConfigEnv :=
  { load_config_from_file := fun _ => Except.ok ("mod", "Cls", "payload"),
    job_post_process_ok := fun _ _ _ => Except.error "bad post-process config",
    is_registered := fun _ => true,
    cli_auto_config := fun _ _ => Except.ok { jobs := ["j1"] } }

end Jade

/-! ## Helper lemmas -/

namespace Jade

/-- One-step unfolding of `runSubmits`. -/
theorem runSubmits_succ (files : Nat → String) (n g : Nat) (m : FakeManager) :
    runSubmits files (n + 1) g m =
      ((runSubmits (fun k => files (k + 1)) n (g + 1)
          (FakeManager.submit g m (files 0)).2.1).1,
       (runSubmits (fun k => files (k + 1)) n (g + 1)
          (FakeManager.submit g m (files 0)).2.1).2.1,
       toString g ::
       (runSubmits (fun k => files (k + 1)) n (g + 1)
          (FakeManager.submit g m (files 0)).2.1).2.2) :=
  rfl

/-- The ids returned by `n` successive submits from class counter `g` are
the decimal strings of `g, g+1, ..., g+n-1` in order. -/
theorem runSubmits_ids (files : Nat → String) :
    ∀ (n g : Nat) (m : FakeManager),
      (runSubmits files n g m).2.2 = (List.range n).map (fun k => toString (g + k)) := by
  intro n
  induction n generalizing files with
  | zero => intro g m; rfl
  | succ n ih =>
    intro g m
    rw [runSubmits_succ, List.range_succ_eq_map]
    simp only [List.map_cons, List.map_map, Nat.add_zero]
    refine congrArg₂ List.cons rfl ?_
    rw [ih]
    apply List.map_congr_left
    intro k _
    simp only [Function.comp_apply, Nat.succ_eq_add_one]
    congr 1
    omega

/-- After `n > 0` submits the instance tracks the last id handed out and a
freshly started subprocess running the last script. -/
theorem runSubmits_final_state (files : Nat → String) :
    ∀ (n g : Nat) (m : FakeManager), 0 < n →
      (runSubmits files n g m).2.1 =
        { _job_id := some (toString (g + (n - 1))),
          _subprocess_mgr := some { script := files (n - 1), alive := true } } := by
  intro n
  induction n generalizing files with
  | zero => intro g m h; exact absurd h (by simp)
  | succ n ih =>
    intro g m _
    rw [runSubmits_succ]
    cases n with
    | zero => rfl
    | succ n' =>
      show (runSubmits (fun k => files (k + 1)) (n' + 1) (g + 1)
          (FakeManager.submit g m (files 0)).2.1).2.1 = _
      rw [ih (fun k => files (k + 1)) (g + 1) _ (Nat.succ_pos n')]
      simp only [Nat.add_sub_cancel]
      congr 3
      omega

/-- A fold that increments its first component on elements satisfying `p`
and its second on the others counts, on top of the accumulator, the
lengths of the two filtered sublists. -/
theorem count_loop_generic {α : Type} (p : α → Bool) (rs : List α) :
    ∀ (a b : Nat),
      rs.foldl (fun (q : Nat × Nat) x => if p x then (q.1 + 1, q.2) else (q.1, q.2 + 1)) (a, b) =
        (a + (rs.filter p).length, b + (rs.filter (fun x => !p x)).length) := by
  induction rs with
  | nil => intro a b; simp
  | cons r rs ih =>
    intro a b
    cases hb : p r <;> simp [List.filter_cons, hb, ih, Prod.ext_iff] <;> omega

/-- Splitting a list by a Boolean predicate preserves the total length. -/
theorem filter_split_generic {α : Type} (p : α → Bool) (rs : List α) :
    (rs.filter p).length + (rs.filter (fun x => !p x)).length = rs.length := by
  induction rs with
  | nil => rfl
  | cons r rs ih =>
    cases hb : p r <;> simp [List.filter_cons, hb] <;> omega

/-- One-step unfolding of `create_chunks` on a non-empty list with a
positive chunk size. -/
theorem create_chunks_cons {α : Type} (x : α) (xs : List α) (size : Nat)
    (h : ¬size = 0) :
    create_chunks (x :: xs) size =
      (x :: xs).take size :: create_chunks ((x :: xs).drop size) size := by
  rw [create_chunks]
  exact dif_neg h

/-- `create_chunks` of the empty list is empty (Python's range over an
empty length yields nothing). -/
theorem create_chunks_nil {α : Type} (size : Nat) :
    create_chunks ([] : List α) size = [] := by
  rw [create_chunks]

/-- For a positive chunk size, `create_chunks` is empty exactly on the
empty list. -/
theorem create_chunks_eq_nil {α : Type} (size : Nat) (h : 0 < size)
    (items : List α) :
    create_chunks items size = [] ↔ items = [] := by
  cases items with
  | nil => simp [create_chunks]
  | cons x xs =>
    rw [create_chunks_cons x xs size (by omega)]
    simp

/-- Concatenating the chunks in order recovers the original list. -/
theorem create_chunks_join_aux {α : Type} (size : Nat) (h : 0 < size) :
    ∀ (n : Nat) (items : List α), items.length ≤ n →
      (create_chunks items size).flatten = items := by
  intro n
  induction n with
  | zero =>
    intro items hle
    have : items = [] := List.eq_nil_of_length_eq_zero (Nat.le_zero.mp hle)
    subst this
    rw [create_chunks_nil]
    rfl
  | succ n ih =>
    intro items hle
    match items with
    | [] => rw [create_chunks_nil]; rfl
    | x :: xs =>
      have hlen : xs.length + 1 ≤ n + 1 := by simpa using hle
      rw [create_chunks_cons x xs size (by omega), List.flatten_cons,
        ih ((x :: xs).drop size)
          (by simp only [List.length_drop, List.length_cons]; omega)]
      exact List.take_append_drop size (x :: xs)

/-- Every chunk is non-empty and no longer than the chunk size. -/
theorem create_chunks_mem_aux {α : Type} (size : Nat) (h : 0 < size) :
    ∀ (n : Nat) (items : List α), items.length ≤ n →
      ∀ c ∈ create_chunks items size, c ≠ [] ∧ c.length ≤ size := by
  intro n
  induction n with
  | zero =>
    intro items hle c hc
    have : items = [] := List.eq_nil_of_length_eq_zero (Nat.le_zero.mp hle)
    subst this
    rw [create_chunks_nil] at hc
    simp at hc
  | succ n ih =>
    intro items hle c hc
    match items with
    | [] => rw [create_chunks_nil] at hc; simp at hc
    | x :: xs =>
      have hlen : xs.length + 1 ≤ n + 1 := by simpa using hle
      rw [create_chunks_cons x xs size (by omega)] at hc
      rcases List.mem_cons.mp hc with hc | hc
      · subst hc
        constructor
        · simp [List.take_eq_nil_iff]
          omega
        · simp [List.length_take]
      · exact ih ((x :: xs).drop size)
          (by simp only [List.length_drop, List.length_cons]; omega) c hc

/-- Every chunk except possibly the last has length exactly the chunk
size. -/
theorem create_chunks_dropLast_aux {α : Type} (size : Nat) (h : 0 < size) :
    ∀ (n : Nat) (items : List α), items.length ≤ n →
      ∀ c ∈ (create_chunks items size).dropLast, c.length = size := by
  intro n
  induction n with
  | zero =>
    intro items hle c hc
    have : items = [] := List.eq_nil_of_length_eq_zero (Nat.le_zero.mp hle)
    subst this
    rw [create_chunks_nil] at hc
    simp at hc
  | succ n ih =>
    intro items hle c hc
    match items with
    | [] => rw [create_chunks_nil] at hc; simp at hc
    | x :: xs =>
      have hlen : xs.length + 1 ≤ n + 1 := by simpa using hle
      rw [create_chunks_cons x xs size (by omega)] at hc
      by_cases hrest : create_chunks ((x :: xs).drop size) size = []
      · rw [hrest] at hc
        simp at hc
      · rw [List.dropLast_cons_of_ne_nil hrest] at hc
        rcases List.mem_cons.mp hc with hc | hc
        · subst hc
          have hlt : size < (x :: xs).length := by
            have hdrop : (x :: xs).drop size ≠ [] :=
              fun hnil => hrest (by rw [hnil, create_chunks_nil])
            rw [Ne, List.drop_eq_nil_iff] at hdrop
            omega
          rw [List.length_take]
          simp only [List.length_cons] at hlt ⊢
          omega
        · exact ih ((x :: xs).drop size)
            (by simp only [List.length_drop, List.length_cons]; omega) c hc

/-- `check_filename` raises exactly when the regex does not match or the
name exceeds the length limit. -/
theorem check_filename_error_characterization (name : String) :
    (∃ e, check_filename name = Except.error e) ↔
      (matchesFilenameRegex name = false ∨ name.length > MAX_PATH_LENGTH) := by
  by_cases hm : matchesFilenameRegex name <;>
    by_cases hl : name.length > MAX_PATH_LENGTH <;>
      simp [check_filename, hm, hl]

/-- The regex `^[\w\.-]+$` fails to match exactly when the name, after
dropping the single trailing newline that the `$` anchor tolerates, is
empty or contains a character outside the class. -/
theorem matchesFilenameRegex_eq_false (name : String) :
    matchesFilenameRegex name = false ↔
      ((if name.data.getLast? = some '\n' then name.data.dropLast else name.data) = [] ∨
       ∃ c ∈ (if name.data.getLast? = some '\n' then name.data.dropLast else name.data),
         validFilenameChar c = false) := by
  simp only [matchesFilenameRegex, Bool.and_eq_false_iff, Bool.not_eq_false',
    List.isEmpty_iff, List.all_eq_false]
  constructor
  · rintro (hc | ⟨c, hc, hv⟩)
    · exact Or.inl hc
    · exact Or.inr ⟨c, hc, by simpa using hv⟩
  · rintro (hc | ⟨c, hc, hv⟩)
    · exact Or.inl hc
    · exact Or.inr ⟨c, hc, by simpa using hv⟩

end Jade

/-! ## Claims -/

/-- C1: the claim says `deserialize(serialize(x))` equals `x` in every
observable field (country, data, extension, name) for every
`AutoRegressionParameters`.  The code serializes `self._name` under the
`"country"` key, so for `country = "United States"` the round trip
returns `country = "united_states"`: the round-tripped value differs
from `x` in the `country` field while the spec demands equality. -/
theorem autoregression_roundtrip_fails_on_country :
    (Jade.AutoRegressionParameters.deserialize
        (Jade.AutoRegressionParameters.serialize
          (Jade.AutoRegressionParameters.init "United States" "gdp.csv"))).country
      = "united_states" ∧
    (Jade.AutoRegressionParameters.init "United States" "gdp.csv").country
      = "United States" ∧
    Jade.AutoRegressionParameters.deserialize
        (Jade.AutoRegressionParameters.serialize
          (Jade.AutoRegressionParameters.init "United States" "gdp.csv"))
      ≠ Jade.AutoRegressionParameters.init "United States" "gdp.csv" := by
  refine ⟨rfl, rfl, ?_⟩
  decide

/-- C2 counterexample: after one `submit` (which returned id "1"), querying
the unknown id "999" yields status RUNNING, not NONE — `check_status`
never consults the queried id, so once a subprocess manager exists it
reports that subprocess's status for every id, known or not.  The claim
that unknown ids always get NONE in every reachable state is false. -/
theorem check_status_unknown_id_after_submit_not_none :
    (Jade.FakeManager.submit 1 Jade.FakeManager.init "script.sh").2.2.job_id = "1" ∧
    ((Jade.FakeManager.submit 1 Jade.FakeManager.init "script.sh").2.1.check_status
        none (some "999")).status = Jade.HpcJobStatus.RUNNING ∧
    Jade.HpcJobStatus.RUNNING ≠ Jade.HpcJobStatus.NONE := by
  refine ⟨rfl, rfl, by decide⟩

/-- C2 (amended): `check_status` is total (never raises), and it returns
status NONE for every queried job id exactly in the states where no
subprocess manager exists — i.e. before any `submit` on that instance;
after a `submit` it reports the tracked subprocess's RUNNING/COMPLETE
status regardless of the queried id. -/
theorem check_status_returns_none_without_subprocess (m : Jade.FakeManager)
    (name job_id : Option String) (h : m._subprocess_mgr = none) :
    m.check_status name job_id =
      { job_id := job_id, name := "", status := Jade.HpcJobStatus.NONE } := by
  simp [Jade.FakeManager.check_status, h]

/-- Witness for the amended C2 theorem at the freshly initialized manager
and the concrete unknown id "42". -/
theorem check_status_returns_none_without_subprocess_witness :
    Jade.FakeManager.init._subprocess_mgr = none ∧
    Jade.FakeManager.init.check_status none (some "42") =
      { job_id := some "42", name := "", status := Jade.HpcJobStatus.NONE } :=
  ⟨rfl, check_status_returns_none_without_subprocess Jade.FakeManager.init none (some "42") rfl⟩

/-- C3 counterexample: two submits from the initial state return ids "1"
and "2", yet `check_statuses` afterwards is the one-entry mapping for "2"
only — the earlier tracked id "1" has no entry at all, so the mapping does
not contain an entry for every id the backend ever returned from submit. -/
theorem check_statuses_drops_earlier_ids :
    (Jade.runSubmits (fun _ => "run.sh") 2 1 Jade.FakeManager.init).2.2 = ["1", "2"] ∧
    (Jade.runSubmits (fun _ => "run.sh") 2 1 Jade.FakeManager.init).2.1.check_statuses =
      [(some "2", Jade.HpcJobStatus.RUNNING)] ∧
    ¬ ∃ p ∈ (Jade.runSubmits (fun _ => "run.sh") 2 1
        Jade.FakeManager.init).2.1.check_statuses, p.1 = some "1" := by
  refine ⟨rfl, rfl, by decide⟩

/-- C3 (amended): after any positive number of submits, `check_statuses`
returns a singleton mapping whose only key is the id returned by the most
recent submit (which tracks a live subprocess, hence status RUNNING); ids
from earlier submit calls are absent whenever they differ from that key. -/
theorem check_statuses_singleton_last_id (files : Nat → String) (n g : Nat)
    (m : Jade.FakeManager) (h : 0 < n) :
    (Jade.runSubmits files n g m).2.1.check_statuses =
      [(some (toString (g + (n - 1))), Jade.HpcJobStatus.RUNNING)] ∧
    (Jade.runSubmits files n g m).2.2[n - 1]? = some (toString (g + (n - 1))) := by
  constructor
  · rw [Jade.runSubmits_final_state files n g m h]
    rfl
  · rw [Jade.runSubmits_ids]
    have hn : n - 1 < n := Nat.sub_lt h Nat.one_pos
    simp [List.getElem?_map, List.getElem?_range, hn]

/-- Witness for the amended C3 theorem: one submit from the initial state. -/
theorem check_statuses_singleton_last_id_witness :
    (0 : Nat) < 1 ∧
    ((Jade.runSubmits (fun _ => "a.sh") 1 1 Jade.FakeManager.init).2.1.check_statuses =
        [(some (toString (1 + (1 - 1))), Jade.HpcJobStatus.RUNNING)] ∧
      (Jade.runSubmits (fun _ => "a.sh") 1 1 Jade.FakeManager.init).2.2[1 - 1]? =
        some (toString (1 + (1 - 1)))) :=
  ⟨by decide,
   check_statuses_singleton_last_id (fun _ => "a.sh") 1 1 Jade.FakeManager.init (by decide)⟩

/-- C4 counterexample: `next_job_id` is a class attribute mutated by
`FakeManager.next_job_id += 1`, so it is shared by all instances (the
embedding threads it as the explicit class-state argument of `submit`).
With two fresh instances A and B and the initial class counter 1: had B
submitted first it would get id "1", but after A's submit has advanced the
shared counter to 2, B's submit returns "2" — A.submit changed the id B
will return next, so the counter is not per-instance state. -/
theorem submit_counter_shared_between_instances :
    (Jade.FakeManager.submit 1 Jade.FakeManager.init "b.sh").2.2.job_id = "1" ∧
    (Jade.FakeManager.submit 1 Jade.FakeManager.init "a.sh").1 = 2 ∧
    (Jade.FakeManager.submit
        (Jade.FakeManager.submit 1 Jade.FakeManager.init "a.sh").1
        Jade.FakeManager.init "b.sh").2.2.job_id = "2" ∧
    "2" ≠ "1" := by
  refine ⟨rfl, rfl, rfl, by decide⟩

/-- C4 (amended): the synthetic-id counter is class-level state shared by
every `FakeManager` instance: for any shared counter value g and any two
instances A and B, B's submit before A's would return the decimal string
of g, A's submit advances the shared counter to g+1, and B's submit after
A's returns the decimal string of g+1 — instances do interfere through the
shared counter. -/
theorem submit_counter_shared_general (g : Nat) (mA mB : Jade.FakeManager)
    (fA fB : String) :
    (Jade.FakeManager.submit g mB fB).2.2.job_id = toString g ∧
    (Jade.FakeManager.submit g mA fA).1 = g + 1 ∧
    (Jade.FakeManager.submit (Jade.FakeManager.submit g mA fA).1 mB fB).2.2.job_id
      = toString (g + 1) :=
  ⟨rfl, rfl, rfl⟩

/-- C9: successive `submit` calls return strictly increasing synthetic ids
when interpreted as integers: the i-th and j-th ids of any run of n
submits are the decimal strings of integers a < b whenever i < j. -/
theorem submit_ids_strictly_monotone (files : Nat → String) (n g i j : Nat)
    (m : Jade.FakeManager) (hij : i < j) (hj : j < n) :
    ∃ a b : Nat,
      (Jade.runSubmits files n g m).2.2[i]? = some (toString a) ∧
      (Jade.runSubmits files n g m).2.2[j]? = some (toString b) ∧
      a < b := by
  refine ⟨g + i, g + j, ?_, ?_, by omega⟩
  · rw [Jade.runSubmits_ids]
    simp [List.getElem?_map, List.getElem?_range, lt_trans hij hj]
  · rw [Jade.runSubmits_ids]
    simp [List.getElem?_map, List.getElem?_range, hj]

/-- Witness for C9: the first two ids of a two-submit run are decimal
strings of integers in strict increase. -/
theorem submit_ids_strictly_monotone_witness :
    ((0 : Nat) < 1 ∧ (1 : Nat) < 2) ∧
    ∃ a b : Nat,
      (Jade.runSubmits (fun _ => "run.sh") 2 1 Jade.FakeManager.init).2.2[0]? =
        some (toString a) ∧
      (Jade.runSubmits (fun _ => "run.sh") 2 1 Jade.FakeManager.init).2.2[1]? =
        some (toString b) ∧
      a < b :=
  ⟨⟨by decide, by decide⟩,
   submit_ids_strictly_monotone (fun _ => "run.sh") 2 1 0 1 Jade.FakeManager.init
     (by decide) (by decide)⟩

/-- C5 counterexample: `create_submission_script` goes through
`create_script`, which `os.remove`s any existing file before rewriting it,
so over an existing destination file the trace of observable states
contains a point where the file is absent — the replacement is not atomic,
and a failure between the remove and the write would lose the old
content. -/
theorem create_submission_script_not_atomic :
    (some { text := "old content", executable := true } : Option Jade.FileState) ≠ none ∧
    none ∈ Jade.FakeManager.create_submission_script_trace
        (some { text := "old content", executable := true }) "echo hi" := by
  constructor
  · simp
  · simp [Jade.FakeManager.create_submission_script_trace, Jade.create_script_trace]

/-- C5 (amended): `create_submission_script` first deletes any existing
file at the destination — so starting from a state with a file present,
the trace starts at that state and passes through an observable state
with no file at the path (after which the old content is gone) — and it
finally leaves the file holding exactly the rendered script
(`"#!/bin/bash\n"` followed by the command body) with the execute bit
set. -/
theorem create_submission_script_removes_then_writes
    (initial : Option Jade.FileState) (script : String) (h : initial.isSome) :
    (Jade.FakeManager.create_submission_script_trace initial script).head? =
      some initial ∧
    initial ≠ none ∧
    none ∈ Jade.FakeManager.create_submission_script_trace initial script ∧
    (Jade.FakeManager.create_submission_script_trace initial script).getLast? =
      some (some { text := "#!/bin/bash" ++ "\n" ++ script, executable := true }) := by
  refine ⟨rfl, ?_, ?_, rfl⟩
  · intro hn
    rw [hn] at h
    simp at h
  · simp [Jade.FakeManager.create_submission_script_trace, Jade.create_script_trace]

/-- Witness for the amended C5 theorem over a concrete pre-existing file. -/
theorem create_submission_script_removes_then_writes_witness :
    (Option.isSome (some { text := "old", executable := false } : Option Jade.FileState)
        = true) ∧
    ((Jade.FakeManager.create_submission_script_trace
        (some { text := "old", executable := false }) "run").head? =
      some (some { text := "old", executable := false }) ∧
    (some { text := "old", executable := false } : Option Jade.FileState) ≠ none ∧
    none ∈ Jade.FakeManager.create_submission_script_trace
        (some { text := "old", executable := false }) "run" ∧
    (Jade.FakeManager.create_submission_script_trace
        (some { text := "old", executable := false }) "run").getLast? =
      some (some { text := "#!/bin/bash" ++ "\n" ++ "run", executable := true })) :=
  ⟨rfl,
   create_submission_script_removes_then_writes
     (some { text := "old", executable := false }) "run" rfl⟩

/-- C6: for every JobManagerBase state, `get_results_summmary` is a pure
projection of the stored results: `num_complete` is the number of stored
results, `num_successful` counts results with status 0, `num_failed`
counts the others, the two add up to `num_complete`, and `num_jobs` is
the configuration's job count. -/
theorem get_results_summmary_correct (jm : Jade.JobManagerBase) :
    jm.get_results_summmary.num_complete = jm.get_completed_results.length ∧
    jm.get_results_summmary.num_successful =
      (jm.get_completed_results.filter (fun r => r.status == 0)).length ∧
    jm.get_results_summmary.num_failed =
      (jm.get_completed_results.filter (fun r => !(r.status == 0))).length ∧
    jm.get_results_summmary.num_successful + jm.get_results_summmary.num_failed =
      jm.get_results_summmary.num_complete ∧
    jm.get_results_summmary.num_jobs = jm._config.get_num_jobs := by
  have hc := Jade.count_loop_generic (fun r : Jade.Result => r.status == 0) jm._results 0 0
  have hs := Jade.filter_split_generic (fun r : Jade.Result => r.status == 0) jm._results
  simp only [Jade.JobManagerBase.get_results_summmary,
    Jade.JobManagerBase.get_completed_results, Jade.JobManagerBase.get_num_jobs,
    hc, Nat.zero_add]
  exact ⟨trivial, trivial, trivial, hs, trivial⟩

/-- C7 counterexample: the name consisting of a letter followed by a
newline contains a character outside the valid set, is non-empty and
within the length limit, yet `check_filename` returns normally — Python's
`$` matches just before a trailing newline, so the claimed
"raises iff illegal character present" equivalence fails. -/
theorem check_filename_accepts_trailing_newline :
    '\n' ∈ "a\n".data ∧
    Jade.validFilenameChar '\n' = false ∧
    "a\n" ≠ "" ∧
    "a\n".length ≤ Jade.MAX_PATH_LENGTH ∧
    Jade.check_filename "a\n" = Except.ok () := by
  refine ⟨by decide, rfl, by decide, by decide, rfl⟩

/-- C7 (amended): `check_filename` raises InvalidParameter iff the name,
after dropping the single trailing newline that Python's `$` anchor
tolerates, is empty or contains a character outside the valid set
(letters, digits, underscore, hyphen, period), or the name's length
exceeds MAX_PATH_LENGTH = 255; otherwise it returns normally with no
side effect. -/
theorem check_filename_error_iff (name : String) :
    (∃ e, Jade.check_filename name = Except.error e) ↔
      ((if name.data.getLast? = some '\n' then name.data.dropLast else name.data) = [] ∨
       (∃ c ∈ (if name.data.getLast? = some '\n' then name.data.dropLast else name.data),
          Jade.validFilenameChar c = false) ∨
       name.length > Jade.MAX_PATH_LENGTH) := by
  rw [Jade.check_filename_error_characterization, Jade.matchesFilenameRegex_eq_false,
    or_assoc]

/-- C8: when a post-process config file is supplied and validating it by
constructing a JobPostProcess fails, `auto_config` terminates with that
error having performed no observable effect: in particular the
configuration dump (`config.dump`) is never reached, so the
JobConfiguration file is never written. -/
theorem auto_config_validation_failure_skips_dump
    (env : Jade.AutoConfigEnv) (extension inputs config_file f : String)
    (module class_name data e : String)
    (hload : env.load_config_from_file f = Except.ok (module, class_name, data))
    (hval : env.job_post_process_ok module class_name data = Except.error e) :
    Jade.auto_config env extension inputs config_file (some f) =
      ([], Except.error e) ∧
    Jade.AutoConfigEvent.dumpedConfig config_file ∉
      (Jade.auto_config env extension inputs config_file (some f)).1 := by
  have h1 : Jade.auto_config env extension inputs config_file (some f) =
      ([], Except.error e) := by
    simp [Jade.auto_config, hload, hval]
  refine ⟨h1, ?_⟩
  rw [h1]
  simp

/-- Witness for C8 at a concrete failing environment. -/
theorem auto_config_validation_failure_skips_dump_witness :
    (Jade.sampleAutoConfigEnv.load_config_from_file "pp.toml" =
        Except.ok ("mod", "Cls", "payload") ∧
      Jade.sampleAutoConfigEnv.job_post_process_ok "mod" "Cls" "payload" =
        Except.error "bad post-process config") ∧
    (Jade.auto_config Jade.sampleAutoConfigEnv "demo" "inputs" "config.json"
        (some "pp.toml") = ([], Except.error "bad post-process config") ∧
      Jade.AutoConfigEvent.dumpedConfig "config.json" ∉
        (Jade.auto_config Jade.sampleAutoConfigEnv "demo" "inputs" "config.json"
          (some "pp.toml")).1) :=
  ⟨⟨rfl, rfl⟩,
   auto_config_validation_failure_skips_dump Jade.sampleAutoConfigEnv
     "demo" "inputs" "config.json" "pp.toml" "mod" "Cls" "payload"
     "bad post-process config" rfl rfl⟩

/-- C10: for every list and every positive size, concatenating the chunks
of `create_chunks` in order yields exactly the original list; every chunk
is non-empty with length at most `size`; and every chunk except possibly
the last has length exactly `size`. -/
theorem create_chunks_spec {α : Type} (items : List α) (size : Nat) (h : 0 < size) :
    (Jade.create_chunks items size).flatten = items ∧
    (∀ c ∈ Jade.create_chunks items size, c ≠ [] ∧ c.length ≤ size) ∧
    (∀ c ∈ (Jade.create_chunks items size).dropLast, c.length = size) :=
  ⟨Jade.create_chunks_join_aux size h items.length items le_rfl,
   Jade.create_chunks_mem_aux size h items.length items le_rfl,
   Jade.create_chunks_dropLast_aux size h items.length items le_rfl⟩

/-- Witness for C10 on a concrete five-element list with chunk size 2. -/
theorem create_chunks_spec_witness :
    (0 : Nat) < 2 ∧
    ((Jade.create_chunks [10, 20, 30, 40, 50] 2).flatten = [10, 20, 30, 40, 50] ∧
      (∀ c ∈ Jade.create_chunks [10, 20, 30, 40, 50] 2, c ≠ [] ∧ c.length ≤ 2) ∧
      (∀ c ∈ (Jade.create_chunks [10, 20, 30, 40, 50] 2).dropLast, c.length = 2)) :=
  ⟨by decide, create_chunks_spec [10, 20, 30, 40, 50] 2 (by decide)⟩
